import Mathlib

/-
Verification of the local authentication and field-encryption core of the
rust_med (Medical Note Generator) repository, against its natural-language
specification.

The frontend auth context (frontend/src/lib/hooks/auth-context.svelte.ts,
class AuthContextClass) and the field-operation wrappers
(frontend/src/lib/tauriService.ts, class TauriService) are embedded as pure
functions over an explicit state: browser localStorage is an association
list, the Tauri backend's response to each call is passed in as an explicit
outcome value, and a thrown JS exception is an explicit outcome constructor.
The Rust cryptographic backend (key derivation, DEK wrap/unwrap, per-field
authenticated encryption) is not part of the frontend sources; it is
modelled from the spec where a claim needs it, with AEAD abstracted as a
keystream XOR plus a deterministic tag.
-/

namespace RustMed

/-- User record as returned by the backend (types.ts, interface User). -/
structure User where
  user_id : String
  username : String
deriving DecidableEq, Repr

/-- Backend authentication response (types.ts, interface AuthResponse). -/
structure AuthResponse where
  success : Bool
  message : String
  user : Option User
deriving DecidableEq, Repr

/-- Registration form data (types.ts, interface RegisterData). -/
structure RegisterData where
  username : String
  password : String
deriving DecidableEq, Repr

/-- Outcome of an awaited backend call: either a response value, or the call
threw (some msg: a JS Error carrying that message; none: a non-Error throw). -/
inductive CallOutcome where
  | resp (r : AuthResponse)
  | threw (msg : Option String)
deriving DecidableEq, Repr

/-- Browser localStorage, modelled as an association list of key/value pairs. -/
abbrev Store := List (String × String)

/-- localStorage.getItem: first binding of the key, if any. -/
def lookupStore : Store → String → Option String
  | [], _ => none
  | (k, v) :: rest, key => if k = key then some v else lookupStore rest key

/-- localStorage.removeItem: drop every binding of the key. -/
def removeItem : Store → String → Store
  | [], _ => []
  | (k, v) :: rest, key =>
      if k = key then removeItem rest key else (k, v) :: removeItem rest key

/-- localStorage.setItem: bind the key to the value, replacing old bindings. -/
def setItem (s : Store) (key v : String) : Store :=
  (key, v) :: removeItem s key

/-- Record of one localStorage mutation performed by an operation. -/
inductive StoreEvent where
  | set (key value : String)
  | remove (key : String)
deriving DecidableEq, Repr

/-- JSON.stringify of a User object, as written to localStorage by the auth
context: a string determined by user_id and username only. -/
def serializeUser (u : User) : String :=
  "\x7b\"user_id\":\"" ++ u.user_id ++ "\",\"username\":\"" ++ u.username ++ "\"\x7d"

/-- Private fields of AuthContextClass (auth-context.svelte.ts): user,
password (cached raw for encryption), error, isLoading. -/
structure AuthModelState where
  user : Option User
  password : Option String
  error : Option String
  isLoading : Bool
deriving DecidableEq, Repr

/-- Fresh instance, as built by the module-level singleton constructor. -/
def initialAuthState : AuthModelState :=
  { user := none, password := none, error := none, isLoading := false }

/-- Public derived state of AuthContextClass (the state getter): user,
isAuthenticated, isLoading, error. -/
structure AuthState where
  user : Option User
  isAuthenticated : Bool
  isLoading : Bool
  error : Option String
deriving DecidableEq, Repr

/-- The derived state: isAuthenticated iff user is non-null and password is
non-null and non-empty (auth-context.svelte.ts, state getter). -/
def stateOf (s : AuthModelState) : AuthState :=
  { user := s.user,
    isAuthenticated := s.user.isSome && s.password.isSome && !(s.password == some ""),
    isLoading := s.isLoading,
    error := s.error }

/-- AuthContextClass.getPassword: returns the cached password field. -/
def getPassword (s : AuthModelState) : Option String :=
  s.password

/-- Result of one auth-context operation: the new private state, the new
localStorage, the localStorage mutations performed, and the message of the
exception propagated to the caller (none when the call returned normally). -/
structure OpResult where
  state : AuthModelState
  store : Store
  events : List StoreEvent
  failure : Option String
deriving DecidableEq, Repr

/-- AuthContextClass.login(password): on success=true with a user, caches the
user and the raw password, writes the serialized user to localStorage; any
other response throws Error(response.message), caught into the error field
and rethrown; a thrown call sets error to the Error's message (or the
fallback string) and rethrows. isLoading is reset in the finally block. -/
def login (s : AuthModelState) (store : Store) (password : String)
    (outcome : CallOutcome) : OpResult :=
  match outcome with
  | .resp r =>
    match r.success, r.user with
    | true, some u =>
        { state := { user := some u, password := some password,
                     error := none, isLoading := false },
          store := setItem store "auth_user" (serializeUser u),
          events := [.set "auth_user" (serializeUser u)],
          failure := none }
    | true, none =>
        { state := { s with error := some r.message, isLoading := false },
          store := store, events := [], failure := some r.message }
    | false, _ =>
        { state := { s with error := some r.message, isLoading := false },
          store := store, events := [], failure := some r.message }
  | .threw m =>
      let msg := m.getD "Login failed"
      { state := { s with error := some msg, isLoading := false },
        store := store, events := [], failure := some msg }

/-- AuthContextClass.register(data): same shape as login, caching
data.password, with fallback message for non-Error throws. -/
def registerUser (s : AuthModelState) (store : Store) (data : RegisterData)
    (outcome : CallOutcome) : OpResult :=
  match outcome with
  | .resp r =>
    match r.success, r.user with
    | true, some u =>
        { state := { user := some u, password := some data.password,
                     error := none, isLoading := false },
          store := setItem store "auth_user" (serializeUser u),
          events := [.set "auth_user" (serializeUser u)],
          failure := none }
    | true, none =>
        { state := { s with error := some r.message, isLoading := false },
          store := store, events := [], failure := some r.message }
    | false, _ =>
        { state := { s with error := some r.message, isLoading := false },
          store := store, events := [], failure := some r.message }
  | .threw m =>
      let msg := m.getD "Registration failed"
      { state := { s with error := some msg, isLoading := false },
        store := store, events := [], failure := some msg }

/-- AuthContextClass.logout(): clears user, password and error, removes the
persisted auth_user entry. Never throws. -/
def logout (s : AuthModelState) (store : Store) : OpResult :=
  { state := { user := none, password := none, error := none,
               isLoading := s.isLoading },
    store := removeItem store "auth_user",
    events := [.remove "auth_user"],
    failure := none }

/-- AuthContextClass.checkAuthStatus(): on success=true with a user, caches
the user (the password field is untouched) and persists the serialized user;
otherwise (failure response or throw) clears the user and removes the entry.
Exceptions are swallowed (logged only). -/
def checkAuthStatus (s : AuthModelState) (store : Store)
    (outcome : CallOutcome) : OpResult :=
  match outcome with
  | .resp r =>
    match r.success, r.user with
    | true, some u =>
        { state := { s with user := some u, error := none, isLoading := false },
          store := setItem store "auth_user" (serializeUser u),
          events := [.set "auth_user" (serializeUser u)],
          failure := none }
    | true, none =>
        { state := { s with user := none, error := none, isLoading := false },
          store := removeItem store "auth_user",
          events := [.remove "auth_user"], failure := none }
    | false, _ =>
        { state := { s with user := none, error := none, isLoading := false },
          store := removeItem store "auth_user",
          events := [.remove "auth_user"], failure := none }
  | .threw _ =>
      { state := { s with user := none, error := none, isLoading := false },
        store := removeItem store "auth_user",
        events := [.remove "auth_user"], failure := none }

/-- AuthContextClass.initialize(): reads the stored auth_user entry and
guards the body with the JS truthiness test if (storedUser), which is false
for a missing entry and for a stored empty string — both skip the block
untouched. For a non-empty entry, whether JSON.parse succeeds (the
user-restoring line is commented out in the source) or throws (caught), the
entry is removed; the user field is never set. The JSON parser itself is an
arbitrary parameter. -/
def initFromStorage (s : AuthModelState) (store : Store)
    (parse : String → Option User) : OpResult :=
  match lookupStore store "auth_user" with
  | some stored =>
    if stored = "" then
      { state := s, store := store, events := [], failure := none }
    else
      match parse stored with
      | some _ =>
          { state := s, store := removeItem store "auth_user",
            events := [.remove "auth_user"], failure := none }
      | none =>
          { state := s, store := removeItem store "auth_user",
            events := [.remove "auth_user"], failure := none }
  | none =>
      { state := s, store := store, events := [], failure := none }

/-- Backend note shape as returned by load_patient_notes (snake_case fields),
before the frontend renames them (tauriService.ts, loadNotes). -/
structure BackendNote where
  id : String
  first_name : String
  last_name : String
  date_of_birth : String
  note_type : String
  transcript : String
  medical_note : String
  created_at : String
deriving DecidableEq, Repr

/-- Frontend note shape (types.ts, interface TauriNote). -/
structure TauriNote where
  id : String
  firstName : String
  lastName : String
  dateOfBirth : String
  noteType : String
  transcript : String
  medicalNote : String
  createdAt : String
deriving DecidableEq, Repr

/-- Note payload for create/update (types.ts, interface TauriNoteIn). -/
structure TauriNoteIn where
  firstName : String
  lastName : String
  dateOfBirth : String
  noteType : String
  transcript : String
  medicalNote : String
deriving DecidableEq, Repr

/-- Field renaming applied by TauriService.loadNotes to each backend note. -/
def mapBackendNote (n : BackendNote) : TauriNote :=
  { id := n.id, firstName := n.first_name, lastName := n.last_name,
    dateOfBirth := n.date_of_birth, noteType := n.note_type,
    transcript := n.transcript, medicalNote := n.medical_note,
    createdAt := n.created_at }

/-- Result of the load_patient_notes backend command as consumed by the
frontend. -/
structure LoadBackendResult where
  success : Bool
  notes : List BackendNote
  error : Option String
deriving DecidableEq, Repr

/-- Result returned by TauriService.loadNotes. -/
structure LoadNotesResult where
  success : Bool
  notes : List TauriNote
  error : Option String
deriving DecidableEq, Repr

/-- Result of create_patient_note / update_patient_note as returned to the
caller. -/
structure NoteOpResult where
  success : Bool
  note_id : Option String
  error : Option String
deriving DecidableEq, Repr

/-- TauriService.loadNotes: reads authContext.getPassword(); a null or empty
password short-circuits with an error result (backend not invoked); otherwise
the backend command is invoked with the password and its notes are renamed.
The second component records the password sent to the backend invoke, none
when the invoke was never made. -/
def loadNotes (s : AuthModelState) (backend : LoadBackendResult) :
    LoadNotesResult × Option String :=
  match getPassword s with
  | none =>
      ({ success := false, notes := [],
         error := some "Password required for decryption" }, none)
  | some p =>
    if p = "" then
      ({ success := false, notes := [],
         error := some "Password required for decryption" }, none)
    else if backend.success then
      ({ success := true, notes := backend.notes.map mapBackendNote,
         error := none }, some p)
    else
      ({ success := false, notes := [], error := backend.error }, some p)

/-- TauriService.createNote: a null or empty password short-circuits with an
error result (backend not invoked); otherwise the backend command is invoked
with the password and its result returned. Second component as in loadNotes. -/
def createNote (s : AuthModelState) (_note : TauriNoteIn)
    (backend : NoteOpResult) : NoteOpResult × Option String :=
  match getPassword s with
  | none =>
      ({ success := false, note_id := none,
         error := some "Password required for encryption" }, none)
  | some p =>
    if p = "" then
      ({ success := false, note_id := none,
         error := some "Password required for encryption" }, none)
    else (backend, some p)

/-- TauriService.updateNote: same guard as createNote. -/
def updateNote (s : AuthModelState) (_noteId : String) (_note : TauriNoteIn)
    (backend : NoteOpResult) : NoteOpResult × Option String :=
  match getPassword s with
  | none =>
      ({ success := false, note_id := none,
         error := some "Password required for encryption" }, none)
  | some p =>
    if p = "" then
      ({ success := false, note_id := none,
         error := some "Password required for encryption" }, none)
    else (backend, some p)

/-- Error message rendered raw by the login form (login-form.svelte renders
auth.state.error verbatim inside the error box when it is non-null). -/
def displayedError (s : AuthModelState) : Option String :=
  (stateOf s).error

/-- Bytes are naturals kept below 256 by construction. -/
abbrev Bytes := List Nat

/-- KDF cost parameters (spec section 3, kdf.params). -/
structure KdfParams where
  memory_kib : Nat
  iterations : Nat
  parallelism : Nat
deriving DecidableEq, Repr

/-- Deterministic accumulator mix used by the abstract hash below. -/
def mixByte (acc b : Nat) : Nat :=
  (acc * 131 + b + 7) % 65536

/-- Deterministic hash of a byte list from a seed, used to model key
derivation, keystreams and tags abstractly. -/
def hashBytes (l : Bytes) (seed : Nat) : Nat :=
  l.foldl mixByte seed

/-- Modelled from the spec: the Key Derivation Unit's derive(password, salt,
params) -> KEK(32 bytes); argon2id itself is absent from the frontend
sources, so it is abstracted as a deterministic 32-byte function of exactly
the password, the salt and the cost parameters. -/
def derive (password salt : Bytes) (p : KdfParams) : Bytes :=
  (List.range 32).map (fun i =>
    (hashBytes salt (hashBytes password
      (p.memory_kib + 131 * p.iterations + 257 * p.parallelism)) + 1009 * i) % 256)

/-- Modelled from the spec: generate_dek() -> 32 cryptographically random
bytes; randomness is abstracted as a seed parameter expanded to 32 bytes. -/
def generate_dek (seed : Nat) : Bytes :=
  (List.range 32).map (fun i => (seed / 256 ^ i) % 256)

/-- Modelled from the spec: the AES-256-GCM keystream byte at position i for
a given key and nonce, abstracted as a deterministic function. -/
def keystream (key nonce : Bytes) (i : Nat) : Nat :=
  (hashBytes nonce (hashBytes key 5381) + 2693 * i) % 256

/-- XOR a byte list against a keystream starting at position i. -/
def xorStream : Bytes → (Nat → Nat) → Nat → Bytes
  | [], _, _ => []
  | b :: bs, ks, i => (b ^^^ ks i) :: xorStream bs ks (i + 1)

/-- Modelled from the spec: the GCM authentication tag over a ciphertext for
a given key and nonce, abstracted as a deterministic function of all three. -/
def macTag (key nonce ct : Bytes) : Nat :=
  hashBytes ct (hashBytes nonce (hashBytes key 1231))

/-- Wrapped DEK value (spec section 3, wrapped_dek): nonce, ciphertext, tag. -/
structure WrappedDek where
  nonce : Bytes
  ciphertext : Bytes
  tag : Nat
deriving DecidableEq, Repr

/-- Modelled from the spec: wrap(dek, kek) authenticated-encrypts the DEK
under the KEK with a fresh nonce (passed explicitly here). -/
def wrap (dek kek nonce : Bytes) : WrappedDek :=
  let ct := xorStream dek (keystream kek nonce) 0
  { nonce := nonce, ciphertext := ct, tag := macTag kek nonce ct }

/-- Modelled from the spec: unwrap(wrapped, kek) authenticated-decrypts; any
tag-verification failure is one opaque failure (none). -/
def unwrap (w : WrappedDek) (kek : Bytes) : Option Bytes :=
  if macTag kek w.nonce w.ciphertext = w.tag then
    some (xorStream w.ciphertext (keystream kek w.nonce) 0)
  else none

/-- Encrypted sensitive field (spec section 3, EncryptedField). -/
structure EncryptedField where
  nonce : Bytes
  ciphertext : Bytes
  tag : Nat
deriving DecidableEq, Repr

/-- Modelled from the spec: encrypt_field(plaintext) under the DEK with a
fresh nonce (passed explicitly here). -/
def encrypt_field (dek plaintext nonce : Bytes) : EncryptedField :=
  let ct := xorStream plaintext (keystream dek nonce) 0
  { nonce := nonce, ciphertext := ct, tag := macTag dek nonce ct }

/-- Modelled from the spec: decrypt_field under the DEK; any failure is an
opaque per-field integrity failure (none). -/
def decrypt_field (dek : Bytes) (f : EncryptedField) : Option Bytes :=
  if macTag dek f.nonce f.ciphertext = f.tag then
    some (xorStream f.ciphertext (keystream dek f.nonce) 0)
  else none

/-- Stored record shape for the batch load: an identifier plus the two
encrypted sensitive fields. -/
structure StoredNote where
  id : String
  transcript : EncryptedField
  medical_note : EncryptedField
deriving DecidableEq, Repr

/-- Decrypted record produced by a successful per-record decryption. -/
structure DecryptedNote where
  id : String
  transcript : Bytes
  medical_note : Bytes
deriving DecidableEq, Repr

/-- Decrypt one stored record's sensitive fields; none if either field fails
its integrity check. -/
def decryptStoredNote (dek : Bytes) (r : StoredNote) : Option DecryptedNote :=
  match decrypt_field dek r.transcript, decrypt_field dek r.medical_note with
  | some t, some m => some { id := r.id, transcript := t, medical_note := m }
  | _, _ => none

/-- Result of the spec-modelled batch load. -/
structure BatchLoadResult where
  success : Bool
  notes : List DecryptedNote
  failures : List String
deriving DecidableEq, Repr

/-- Modelled from the spec: the backend command load_patient_notes (absent
from the frontend sources) decrypts each record's fields with the session
key; a field integrity failure is reported per-field (by record id) and the
remaining records still load, so the batch as a whole succeeds. -/
def load_patient_notes (dek : Bytes) (records : List StoredNote) :
    BatchLoadResult :=
  { success := true,
    notes := records.filterMap (decryptStoredNote dek),
    failures := (records.filter
      (fun r => (decryptStoredNote dek r).isNone)).map (fun r => r.id) }

/-- Modelled from the spec: the generic incorrect-credentials message the
backend surfaces on an authentication failure (the backend command itself is
absent from the frontend sources). -/
def specIncorrectCredentialsMessage : String :=
  "incorrect password"

/-- Modelled from the spec: the generic registration-success message. -/
def specAccountCreatedMessage : String :=
  "account created"

/-- An awaited auth call fails: the backend reports failure (success false,
or no user in a success response, which the frontend treats as failure) or
the call throws. -/
def callFails (o : CallOutcome) : Prop :=
  match o with
  | .resp r => r.success = false ∨ r.user = none
  | .threw _ => True

/-- The message the auth context surfaces for a failed call: the response's
message when the backend reported failure, the Error's message when the call
threw one, else the operation's fallback string. -/
def surfacedMessage (o : CallOutcome) (fallback : String) : String :=
  match o with
  | .resp r => r.message
  | .threw m => m.getD fallback

/-- The user a successful auth response carries, if the operation's
user-and-store update path runs for it. -/
def outcomeUser (o : CallOutcome) : Option User :=
  match o with
  | .resp r => match r.success, r.user with
    | true, some u => some u
    | _, _ => none
  | .threw _ => none

/-- Concrete user for witnesses. -/
def aliceUser : User :=
  { user_id := "u-1", username := "alice" }

/-- Concrete successful auth response for witnesses. -/
def okResponse : AuthResponse :=
  { success := true, message := "ok", user := some aliceUser }

/-- Concrete failing auth response for witnesses. -/
def failResponse : AuthResponse :=
  { success := false, message := specIncorrectCredentialsMessage, user := none }

/-- Concrete backend load result for witnesses. -/
def emptyBackendLoad : LoadBackendResult :=
  { success := true, notes := [], error := none }

/-- Concrete backend note-op result for witnesses. -/
def someNoteOp : NoteOpResult :=
  { success := true, note_id := some "n-9", error := none }

/-- Concrete note payload for witnesses. -/
def someNoteIn : TauriNoteIn :=
  { firstName := "Ann", lastName := "Lee", dateOfBirth := "1980-01-01",
    noteType := "soap", transcript := "t", medicalNote := "m" }

/-- Concrete JSON parser for witnesses and counterexamples: never yields a
user. -/
def noUserParse : String → Option User :=
  fun _ => none

/-- Concrete authenticated auth-context state for witnesses. -/
def authedState : AuthModelState :=
  { user := some aliceUser, password := some "hunter2", error := none,
    isLoading := false }

/-- Concrete session DEK for witnesses. -/
def dekW : Bytes :=
  [5, 7, 11]

/-- Concrete stored record whose fields decrypt correctly under dekW. -/
def goodStored : StoredNote :=
  { id := "n1",
    transcript := encrypt_field dekW [1, 2, 3] [9],
    medical_note := encrypt_field dekW [4, 5] [10] }

/-- Concrete stored record whose transcript field has a corrupted tag, so its
decryption fails under dekW. -/
def badStored : StoredNote :=
  { id := "n2",
    transcript :=
      { nonce := [9], ciphertext := [1],
        tag := macTag dekW [9] [1] + 1 },
    medical_note := encrypt_field dekW [6] [11] }

/-- Plaintext record recovered from goodStored. -/
def goodDecrypted : DecryptedNote :=
  { id := "n1", transcript := [1, 2, 3], medical_note := [4, 5] }

theorem lookupStore_removeItem (s : Store) (k : String) :
    lookupStore (removeItem s k) k = none := by
  induction s with
  | nil => rfl
  | cons hd tl ih =>
    obtain ⟨k', v⟩ := hd
    by_cases h : k' = k
    · simp [removeItem, h, ih]
    · simp [removeItem, lookupStore, h, ih]

theorem xorStream_xorStream (l : Bytes) (ks : Nat → Nat) (i : Nat) :
    xorStream (xorStream l ks i) ks i = l := by
  induction l generalizing i with
  | nil => rfl
  | cons b bs ih =>
    simp [xorStream, ih, Nat.xor_cancel_right]

/-- C5: for all passwords P and salts S, unwrapping the wrapped DEK with the
KEK derived from the same password, salt and params returns exactly the
original generated DEK bytes. -/
theorem c5_wrap_unwrap_roundtrip (P S : Bytes) (params : KdfParams)
    (seed : Nat) (nonce : Bytes) :
    unwrap (wrap (generate_dek seed) (derive P S params) nonce)
        (derive P S params) = some (generate_dek seed) := by
  simp [unwrap, wrap, xorStream_xorStream]

/-- C8: whenever the derived public state reports isAuthenticated = true,
getPassword() returns a non-null, non-empty value, so key material is
available to every field operation issued in the Authenticated state. -/
theorem c8_authenticated_has_key_material (s : AuthModelState)
    (h : (stateOf s).isAuthenticated = true) :
    ∃ p, getPassword s = some p ∧ p ≠ "" := by
  simp only [stateOf, Bool.and_eq_true, Bool.not_eq_true', beq_eq_false_iff_ne,
    Option.isSome_iff_exists] at h
  obtain ⟨⟨⟨u, hu⟩, ⟨p, hp⟩⟩, hne⟩ := h
  refine ⟨p, hp, fun hcontra => hne ?_⟩
  rw [hp, hcontra]

/-- C8 witness: the concrete authenticated state holds the non-empty cached
secret. -/
theorem c8_witness :
    (stateOf authedState).isAuthenticated = true ∧
    ∃ p, getPassword authedState = some p ∧ p ≠ "" :=
  ⟨rfl, c8_authenticated_has_key_material authedState rfl⟩

/-- C9 counterexample: with an empty-string auth_user entry persisted, the
JS truthiness guard if (storedUser) is false, the block is skipped, and
after initialize() the entry is still present — so it is not the case that
the entry has been removed for every possible content. -/
theorem c9_counterexample :
    lookupStore (initFromStorage initialAuthState [("auth_user", "")]
        noUserParse).store "auth_user" = some "" ∧
    (some "" : Option String) ≠ none := by
  exact ⟨rfl, by decide⟩

/-- C9 amended: after initialize() on the freshly constructed singleton the
session user is null for every possible content of the auth_user entry (so
a restart never restores an authenticated session and the password must be
re-entered), and the entry is removed whenever its content is non-empty; a
stored empty string is falsy under the source's if (storedUser) guard and
is left in place. -/
theorem c9_no_session_restore (store : Store)
    (parse : String → Option User) :
    (initFromStorage initialAuthState store parse).state.user = none ∧
    ∀ v, lookupStore store "auth_user" = some v → v ≠ "" →
      lookupStore (initFromStorage initialAuthState store parse).store
        "auth_user" = none := by
  constructor
  · cases h : lookupStore store "auth_user" with
    | none => simp [initFromStorage, initialAuthState, h]
    | some v =>
        by_cases hv : v = ""
        · simp [initFromStorage, initialAuthState, h, hv]
        · cases hp : parse v <;>
            simp [initFromStorage, initialAuthState, h, hv, hp]
  · intro v hv hne
    cases hp : parse v <;>
      simp [initFromStorage, hv, hne, hp, lookupStore_removeItem]

/-- C9 amended witness: a concrete non-empty stored entry is removed and the
user stays null. -/
theorem c9_witness :
    (initFromStorage initialAuthState [("auth_user", "x")]
        noUserParse).state.user = none ∧
    (lookupStore [("auth_user", "x")] "auth_user" = some "x" ∧
     "x" ≠ "" ∧
     lookupStore (initFromStorage initialAuthState [("auth_user", "x")]
        noUserParse).store "auth_user" = none) :=
  ⟨(c9_no_session_restore [("auth_user", "x")] noUserParse).1,
   rfl, by decide,
   (c9_no_session_restore [("auth_user", "x")] noUserParse).2 "x" rfl
     (by decide)⟩

/-- C4: logout() from the Authenticated state nulls the cached secret,
clears the user and the error, removes the persisted auth_user entry, and
leaves the derived state unauthenticated. -/
theorem c4_logout_clears_session (s : AuthModelState) (store : Store)
    (h : (stateOf s).isAuthenticated = true) :
    (logout s store).state.password = none ∧
    (logout s store).state.user = none ∧
    (logout s store).state.error = none ∧
    (stateOf (logout s store).state).isAuthenticated = false ∧
    lookupStore (logout s store).store "auth_user" = none := by
  refine ⟨rfl, rfl, rfl, rfl, ?_⟩
  exact lookupStore_removeItem store "auth_user"

/-- C4 witness: logout from a concrete authenticated state with a persisted
auth_user entry. -/
theorem c4_witness :
    (stateOf authedState).isAuthenticated = true ∧
    ((logout authedState [("auth_user", "x")]).state.password = none ∧
     (logout authedState [("auth_user", "x")]).state.user = none ∧
     (logout authedState [("auth_user", "x")]).state.error = none ∧
     (stateOf (logout authedState [("auth_user", "x")]).state).isAuthenticated
        = false ∧
     lookupStore (logout authedState [("auth_user", "x")]).store "auth_user"
        = none) :=
  ⟨rfl, c4_logout_clears_session authedState [("auth_user", "x")] rfl⟩

/-- C2: every field operation (load, create, update) invoked while the
session holds no key material (cached password null or empty, which is what
the spec's Unauthenticated state denotes) fails with an error result, never
invokes the backend storage command, and returns no plaintext-looking data. -/
theorem c2_unauthenticated_field_ops_fail (s : AuthModelState)
    (h : getPassword s = none ∨ getPassword s = some "")
    (bl : LoadBackendResult) (bc bu : NoteOpResult) (nid : String)
    (n : TauriNoteIn) :
    (loadNotes s bl).2 = none ∧
    (loadNotes s bl).1.success = false ∧
    (loadNotes s bl).1.notes = [] ∧
    (loadNotes s bl).1.error = some "Password required for decryption" ∧
    (createNote s n bc).2 = none ∧
    (createNote s n bc).1.success = false ∧
    (createNote s n bc).1.note_id = none ∧
    (createNote s n bc).1.error = some "Password required for encryption" ∧
    (updateNote s nid n bu).2 = none ∧
    (updateNote s nid n bu).1.success = false ∧
    (updateNote s nid n bu).1.note_id = none ∧
    (updateNote s nid n bu).1.error = some "Password required for encryption" := by
  rcases h with h | h <;>
    simp [loadNotes, createNote, updateNote, getPassword, h] at * <;>
    simp [loadNotes, createNote, updateNote, h]

/-- C2 witness: field operations from the fresh (unauthenticated) state fail
without reaching the backend. -/
theorem c2_witness :
    (getPassword initialAuthState = none ∨
     getPassword initialAuthState = some "") ∧
    ((loadNotes initialAuthState emptyBackendLoad).2 = none ∧
     (loadNotes initialAuthState emptyBackendLoad).1.success = false ∧
     (loadNotes initialAuthState emptyBackendLoad).1.notes = [] ∧
     (loadNotes initialAuthState emptyBackendLoad).1.error
        = some "Password required for decryption" ∧
     (createNote initialAuthState someNoteIn someNoteOp).2 = none ∧
     (createNote initialAuthState someNoteIn someNoteOp).1.success = false ∧
     (createNote initialAuthState someNoteIn someNoteOp).1.note_id = none ∧
     (createNote initialAuthState someNoteIn someNoteOp).1.error
        = some "Password required for encryption" ∧
     (updateNote initialAuthState "n-9" someNoteIn someNoteOp).2 = none ∧
     (updateNote initialAuthState "n-9" someNoteIn someNoteOp).1.success = false ∧
     (updateNote initialAuthState "n-9" someNoteIn someNoteOp).1.note_id = none ∧
     (updateNote initialAuthState "n-9" someNoteIn someNoteOp).1.error
        = some "Password required for encryption") :=
  ⟨Or.inl rfl,
   c2_unauthenticated_field_ops_fail initialAuthState (Or.inl rfl)
     emptyBackendLoad someNoteOp someNoteOp "n-9" someNoteIn⟩

/-- C1 counterexample: after a successful login the session caches the raw
password itself (no DEK), and a subsequent batch load reads it back via
getPassword() and forwards it to the backend storage command, contradicting
the claim that the session retains only the unwrapped DEK and that no
post-authentication operation reads or forwards the password. -/
theorem c1_counterexample :
    (login initialAuthState [] "hunter2" (.resp okResponse)).state.password
      = some "hunter2" ∧
    getPassword (login initialAuthState [] "hunter2" (.resp okResponse)).state
      = some "hunter2" ∧
    (loadNotes (login initialAuthState [] "hunter2" (.resp okResponse)).state
        emptyBackendLoad).2 = some "hunter2" := by
  refine ⟨rfl, rfl, ?_⟩
  simp [login, okResponse, aliceUser, loadNotes, getPassword, emptyBackendLoad]

/-- C1 amended: after every successful authenticate(password) call the
session retains the raw password (not a DEK) as its key material, and every
post-authentication field operation reads it via getPassword() and forwards
it to the backend storage command. -/
theorem c1_password_is_the_session_secret (s : AuthModelState) (store : Store)
    (pw : String) (r : AuthResponse) (u : User) (backend : LoadBackendResult)
    (hs : r.success = true) (hu : r.user = some u) (hpw : pw ≠ "") :
    (login s store pw (.resp r)).state.password = some pw ∧
    getPassword (login s store pw (.resp r)).state = some pw ∧
    (loadNotes (login s store pw (.resp r)).state backend).2 = some pw := by
  obtain ⟨suc, msg, usr⟩ := r
  simp only at hs hu
  subst hs; subst hu
  refine ⟨rfl, rfl, ?_⟩
  cases hb : backend.success <;>
    simp [login, loadNotes, getPassword, hpw, hb]

/-- C1 amended witness: a concrete successful login retains and forwards the
concrete password. -/
theorem c1_witness :
    okResponse.success = true ∧ okResponse.user = some aliceUser ∧
    "hunter2" ≠ "" ∧
    ((login initialAuthState [] "hunter2" (.resp okResponse)).state.password
        = some "hunter2" ∧
     getPassword
        (login initialAuthState [] "hunter2" (.resp okResponse)).state
        = some "hunter2" ∧
     (loadNotes (login initialAuthState [] "hunter2" (.resp okResponse)).state
        emptyBackendLoad).2 = some "hunter2") :=
  ⟨rfl, rfl, by decide,
   c1_password_is_the_session_secret initialAuthState [] "hunter2" okResponse
     aliceUser emptyBackendLoad rfl rfl (by decide)⟩

/-- C3 counterexample: a login attempt that throws (for example because the
Tauri API is unavailable) surfaces the raw exception message, not a generic
incorrect-credentials result, so the error clause of the claim fails for the
throwing case it quantifies over. -/
theorem c3_counterexample :
    (login initialAuthState [] "pw"
        (.threw (some "Tauri APIs not available"))).state.error
      = some "Tauri APIs not available" ∧
    "Tauri APIs not available" ≠ specIncorrectCredentialsMessage := by
  exact ⟨rfl, by decide⟩

/-- C3 amended: every failed login attempt (the backend reports failure or
the call throws) leaves the session Unauthenticated with no user and no key
material and isAuthenticated false, and an error is surfaced to the caller:
the backend's (generic incorrect-credentials) message when the backend
reported failure, otherwise the thrown error's message or the fallback. -/
theorem c3_failed_login_keeps_state (s : AuthModelState) (store : Store)
    (pw : String) (o : CallOutcome)
    (hu : s.user = none) (hp : s.password = none) (hf : callFails o) :
    (login s store pw o).state.user = none ∧
    (login s store pw o).state.password = none ∧
    (stateOf (login s store pw o).state).isAuthenticated = false ∧
    (login s store pw o).state.error
      = some (surfacedMessage o "Login failed") ∧
    (login s store pw o).failure
      = some (surfacedMessage o "Login failed") := by
  cases o with
  | threw m =>
      simp [login, stateOf, surfacedMessage, hu, hp]
  | resp r =>
      obtain ⟨suc, msg, usr⟩ := r
      rcases hf with hf | hf
      · simp only at hf
        subst hf
        simp [login, stateOf, surfacedMessage, hu, hp]
      · simp only at hf
        subst hf
        cases suc <;> simp [login, stateOf, surfacedMessage, hu, hp]

/-- C3 witness: a concrete backend-reported failure on the fresh state
leaves it unauthenticated and surfaces the response's message. -/
theorem c3_witness :
    initialAuthState.user = none ∧ initialAuthState.password = none ∧
    callFails (.resp failResponse) ∧
    ((login initialAuthState [] "pw" (.resp failResponse)).state.user = none ∧
     (login initialAuthState [] "pw" (.resp failResponse)).state.password
        = none ∧
     (stateOf (login initialAuthState [] "pw"
        (.resp failResponse)).state).isAuthenticated = false ∧
     (login initialAuthState [] "pw" (.resp failResponse)).state.error
        = some (surfacedMessage (.resp failResponse) "Login failed") ∧
     (login initialAuthState [] "pw" (.resp failResponse)).failure
        = some (surfacedMessage (.resp failResponse) "Login failed")) :=
  ⟨rfl, rfl, Or.inl rfl,
   c3_failed_login_keeps_state initialAuthState [] "pw" (.resp failResponse)
     rfl rfl (Or.inl rfl)⟩

/-- C7 counterexample: a registration attempt that throws leads the UI error
box (which renders auth.state.error verbatim) to display the raw exception
text, which is neither of the spec's generic user-facing messages, so the
UI does not surface only a boolean plus a generic message. -/
theorem c7_counterexample :
    displayedError
        (registerUser initialAuthState []
          { username := "bob", password := "pw1" }
          (.threw (some "Tauri APIs not available"))).state
      = some "Tauri APIs not available" ∧
    "Tauri APIs not available" ≠ specIncorrectCredentialsMessage ∧
    "Tauri APIs not available" ≠ specAccountCreatedMessage := by
  exact ⟨rfl, by decide, by decide⟩

/-- C7 amended: for every failed login or registration attempt the UI error
display surfaces the attempt's message verbatim — the backend's message for
a reported failure, the exception's message (or the hardcoded fallback) for
a throw — rather than remapping it to a fixed generic message. -/
theorem c7_error_display_is_verbatim (s s2 : AuthModelState)
    (store store2 : Store) (pw : String) (d : RegisterData)
    (o o2 : CallOutcome) (hf : callFails o) (hf2 : callFails o2) :
    displayedError (login s store pw o).state
      = some (surfacedMessage o "Login failed") ∧
    displayedError (registerUser s2 store2 d o2).state
      = some (surfacedMessage o2 "Registration failed") := by
  constructor
  · cases o with
    | threw m => simp [login, displayedError, stateOf, surfacedMessage]
    | resp r =>
        obtain ⟨suc, msg, usr⟩ := r
        rcases hf with hf | hf
        · simp only at hf
          subst hf
          simp [login, displayedError, stateOf, surfacedMessage]
        · simp only at hf
          subst hf
          cases suc <;>
            simp [login, displayedError, stateOf, surfacedMessage]
  · cases o2 with
    | threw m => simp [registerUser, displayedError, stateOf, surfacedMessage]
    | resp r =>
        obtain ⟨suc, msg, usr⟩ := r
        rcases hf2 with hf2 | hf2
        · simp only at hf2
          subst hf2
          simp [registerUser, displayedError, stateOf, surfacedMessage]
        · simp only at hf2
          subst hf2
          cases suc <;>
            simp [registerUser, displayedError, stateOf, surfacedMessage]

/-- C7 amended witness: a concrete backend-reported failure message is
displayed verbatim by the UI for both login and registration. -/
theorem c7_witness :
    callFails (.resp failResponse) ∧
    (displayedError
        (login initialAuthState [] "pw" (.resp failResponse)).state
      = some (surfacedMessage (.resp failResponse) "Login failed") ∧
     displayedError
        (registerUser initialAuthState []
          { username := "bob", password := "pw1" } (.resp failResponse)).state
      = some (surfacedMessage (.resp failResponse) "Registration failed")) :=
  ⟨Or.inl rfl,
   c7_error_display_is_verbatim initialAuthState initialAuthState [] [] "pw"
     { username := "bob", password := "pw1" } (.resp failResponse)
     (.resp failResponse) (Or.inl rfl) (Or.inl rfl)⟩

/-- C6: when an encrypted field of one record fails to decrypt during a
batch load under a valid session key, the batch still succeeds, every record
that decrypts correctly is still returned, and each failing record is
reported per-field by its identifier. -/
theorem c6_batch_load_isolates_field_failures (dek : Bytes)
    (records : List StoredNote) (r : StoredNote) (n : DecryptedNote)
    (hmem : r ∈ records) (hdec : decryptStoredNote dek r = some n) :
    (load_patient_notes dek records).success = true ∧
    n ∈ (load_patient_notes dek records).notes ∧
    ∀ r2 ∈ records, decryptStoredNote dek r2 = none →
      r2.id ∈ (load_patient_notes dek records).failures := by
  refine ⟨rfl, ?_, ?_⟩
  · simp only [load_patient_notes]
    exact List.mem_filterMap.mpr ⟨r, hmem, hdec⟩
  · intro r2 h2 hfail
    simp only [load_patient_notes]
    exact List.mem_map.mpr
      ⟨r2, List.mem_filter.mpr ⟨h2, by simp [hfail]⟩, rfl⟩

/-- C6 witness: in a concrete two-record batch whose second record has a
tampered transcript tag, the intact record still loads and the corrupted one
is reported per-field. -/
theorem c6_witness :
    goodStored ∈ [goodStored, badStored] ∧
    decryptStoredNote dekW goodStored = some goodDecrypted ∧
    ((load_patient_notes dekW [goodStored, badStored]).success = true ∧
     goodDecrypted ∈ (load_patient_notes dekW [goodStored, badStored]).notes ∧
     ∀ r2 ∈ [goodStored, badStored], decryptStoredNote dekW r2 = none →
       r2.id ∈ (load_patient_notes dekW [goodStored, badStored]).failures) :=
  ⟨by simp, by decide,
   c6_batch_load_isolates_field_failures dekW [goodStored, badStored]
     goodStored goodDecrypted (by simp) (by decide)⟩

/-- C10: across every outcome of login, registration, status check, logout
and startup initialization, the only localStorage key ever written is
auth_user, and the value written is always the serialization (user_id and
username) of the user object carried by the backend's successful response;
no password or key material is ever persisted. -/
theorem c10_only_serialized_user_persisted (s : AuthModelState)
    (store : Store) (pw : String) (o o2 o3 : CallOutcome) (d : RegisterData)
    (parse : String → Option User) :
    ((login s store pw o).events = [] ∨
      ∃ u, outcomeUser o = some u ∧
        (login s store pw o).events
          = [StoreEvent.set "auth_user" (serializeUser u)]) ∧
    ((registerUser s store d o2).events = [] ∨
      ∃ u, outcomeUser o2 = some u ∧
        (registerUser s store d o2).events
          = [StoreEvent.set "auth_user" (serializeUser u)]) ∧
    ((checkAuthStatus s store o3).events = [StoreEvent.remove "auth_user"] ∨
      ∃ u, outcomeUser o3 = some u ∧
        (checkAuthStatus s store o3).events
          = [StoreEvent.set "auth_user" (serializeUser u)]) ∧
    (logout s store).events = [StoreEvent.remove "auth_user"] ∧
    ((initFromStorage s store parse).events = [] ∨
      (initFromStorage s store parse).events
        = [StoreEvent.remove "auth_user"]) := by
  refine ⟨?_, ?_, ?_, rfl, ?_⟩
  · cases o with
    | threw m => exact Or.inl rfl
    | resp r =>
        obtain ⟨suc, msg, usr⟩ := r
        cases suc with
        | false => exact Or.inl rfl
        | true =>
            cases usr with
            | none => exact Or.inl rfl
            | some u => exact Or.inr ⟨u, rfl, rfl⟩
  · cases o2 with
    | threw m => exact Or.inl rfl
    | resp r =>
        obtain ⟨suc, msg, usr⟩ := r
        cases suc with
        | false => exact Or.inl rfl
        | true =>
            cases usr with
            | none => exact Or.inl rfl
            | some u => exact Or.inr ⟨u, rfl, rfl⟩
  · cases o3 with
    | threw m => exact Or.inl rfl
    | resp r =>
        obtain ⟨suc, msg, usr⟩ := r
        cases suc with
        | false => exact Or.inl rfl
        | true =>
            cases usr with
            | none => exact Or.inl rfl
            | some u => exact Or.inr ⟨u, rfl, rfl⟩
  · cases h : lookupStore store "auth_user" with
    | none =>
        left
        simp [initFromStorage, h]
    | some v =>
        by_cases hv : v = ""
        · left
          simp [initFromStorage, h, hv]
        · cases hp : parse v <;>
            (right; simp [initFromStorage, h, hv, hp])

end RustMed
